import Mathlib

/-!
Verification of the fiscal projection and valuation engine of the
Tilenga Fiscal Sensitivity Dashboard (src/Tilenga_Fiscal_Sensitivity_Dashboard.py).

The computation core (lines 54-77 of the source) is a pure arithmetic
transformation from a record of scalar assumptions to per-year line items,
a schedule, an NPV and an IRR.  Real-number arithmetic of the source is
embedded as exact rational arithmetic over ℚ.  The typed-failure layer
(InvalidInput / NoRootFound / DidNotConverge) and the explicit IRR
bisection solver are specified by the design document only (the source
delegates to a numerical library); those parts are modelled from the spec
and marked as such.
-/

namespace Tilenga

/-- The assumptions record.  Field names follow the source's sidebar
variables (lines 40-49).  `production` and `project_life` are integers,
the monetary and percentage inputs are rationals. -/
structure Assumptions where
  oil_price : ℚ
  production : ℕ
  capex : ℚ
  opex_per_bbl : ℚ
  depreciation_rate : ℚ
  royalty_rate : ℚ
  tax_rate : ℚ
  discount_rate : ℚ
  project_life : ℕ
  deriving Repr, DecidableEq

/-- Source line 42: `days_per_year = 365`. -/
def days_per_year : ℕ := 365

/-- Source line 54: `annual_production = production * days_per_year`. -/
def annual_production (a : Assumptions) : ℕ := a.production * days_per_year

/-- Source line 55: `revenue = oil_price * annual_production / 1e6` (million $). -/
def revenue (a : Assumptions) : ℚ := a.oil_price * (annual_production a : ℚ) / 1000000

/-- Source line 56: `opex_total = opex_per_bbl * annual_production / 1e6`. -/
def opex_total (a : Assumptions) : ℚ := a.opex_per_bbl * (annual_production a : ℚ) / 1000000

/-- Source line 57: `royalty = revenue * royalty_rate / 100`. -/
def royalty (a : Assumptions) : ℚ := revenue a * a.royalty_rate / 100

/-- Source line 59: `depreciation = capex * depreciation_rate / 100`. -/
def depreciation (a : Assumptions) : ℚ := a.capex * a.depreciation_rate / 100

/-- Source line 60: `profit_before_tax = revenue - opex_total - depreciation - royalty`. -/
def profit_before_tax (a : Assumptions) : ℚ :=
  revenue a - opex_total a - depreciation a - royalty a

/-- Source line 61: `tax = profit_before_tax * tax_rate / 100` (no clamping). -/
def tax (a : Assumptions) : ℚ := profit_before_tax a * a.tax_rate / 100

/-- Source line 62: `after_tax_profit = profit_before_tax - tax`. -/
def after_tax_profit (a : Assumptions) : ℚ := profit_before_tax a - tax a

/-- Source line 63: `cash_flow = after_tax_profit + depreciation`. -/
def cash_flow (a : Assumptions) : ℚ := after_tax_profit a + depreciation a

/-- One row of the projected-financials table (source lines 89-97): the
`Year` column together with the six repeated per-year scalars. -/
structure Row where
  year : ℕ
  revenue : ℚ
  opex : ℚ
  royalty : ℚ
  depreciation : ℚ
  tax : ℚ
  netCashFlow : ℚ
  deriving Repr, DecidableEq

/-- The per-year schedule, source lines 66-72 and 89-97: years
`1 .. project_life` (`np.arange(1, project_life + 1)`), each paired with
the six scalars repeated unchanged (`np.repeat(·, project_life)`). -/
def schedule (a : Assumptions) : List Row :=
  (List.range a.project_life).map fun i =>
    { year := i + 1
      revenue := revenue a
      opex := opex_total a
      royalty := royalty a
      depreciation := depreciation a
      tax := tax a
      netCashFlow := cash_flow a }

/-- Discounted sum of a cash-flow list starting at period `t`:
`npvAux r t [c0, c1, ...] = c0/(1+r)^t + c1/(1+r)^(t+1) + ...`.
This is the semantics of `numpy_financial.npv`, which computes
`(values / (1 + rate) ** np.arange(0, len(values))).sum()`. -/
def npvAux (r : ℚ) : ℕ → List ℚ → ℚ
  | _, [] => 0
  | t, c :: cs => c / (1 + r) ^ t + npvAux r (t + 1) cs

/-- `numpy_financial.npv rate values`: every element discounted by its
zero-based position. -/
def npvStream (r : ℚ) (cfs : List ℚ) : ℚ := npvAux r 0 cfs

/-- The cash-flow stream handed to `npf.npv` and `npf.irr` on source
lines 76-77: `[-capex] + list(cash_flows)` with `cash_flows` the annual
cash flow repeated `project_life` times. -/
def stream (a : Assumptions) : List ℚ :=
  -a.capex :: List.replicate a.project_life (cash_flow a)

/-- Source line 76: `npv = npf.npv(discount_rate / 100, [-capex] + list(cash_flows))`. -/
def npv (a : Assumptions) : ℚ := npvStream (a.discount_rate / 100) (stream a)

/-- The §3 input constraints: the ranges the externally validated
assumptions are promised to lie in (`production ≥ 0` and the integrality
of `production` and `project_life` are carried by the types). -/
def Valid (a : Assumptions) : Prop :=
  0 < a.oil_price ∧ 0 < a.capex ∧ 0 ≤ a.opex_per_bbl ∧
  (a.depreciation_rate = 10 ∨ a.depreciation_rate = 20 ∨
    a.depreciation_rate = 25 ∨ a.depreciation_rate = 30) ∧
  5 ≤ a.royalty_rate ∧ a.royalty_rate ≤ 15 ∧
  25 ≤ a.tax_rate ∧ a.tax_rate ≤ 35 ∧
  5 ≤ a.discount_rate ∧ a.discount_rate ≤ 15 ∧
  5 ≤ a.project_life ∧ a.project_life ≤ 20

instance (a : Assumptions) : Decidable (Valid a) := by
  unfold Valid; infer_instance

/-- Scenario A of the regression suite (§8 of the design document). -/
def scenarioA : Assumptions :=
  { oil_price := 75
    production := 200000
    capex := 4000
    opex_per_bbl := 12
    depreciation_rate := 20
    royalty_rate := 10
    tax_rate := 30
    discount_rate := 10
    project_life := 10 }

/-- C1: for the Scenario A assumptions, the engine's line items equal
exactly the stated values (in millions): annualRevenue 5475, annualOpex
876, annualRoyalty 547.5, annualDepreciation 800, profitBeforeTax 3251.5,
tax 975.45, afterTaxProfit 2276.05, annualNetCashFlow 3076.05. -/
theorem scenarioA_line_items :
    revenue scenarioA = 5475 ∧
    opex_total scenarioA = 876 ∧
    royalty scenarioA = 547.5 ∧
    depreciation scenarioA = 800 ∧
    profit_before_tax scenarioA = 3251.5 ∧
    tax scenarioA = 975.45 ∧
    after_tax_profit scenarioA = 2276.05 ∧
    cash_flow scenarioA = 3076.05 := by
  refine ⟨?_, ?_, ?_, ?_, ?_, ?_, ?_, ?_⟩ <;>
    norm_num [revenue, opex_total, royalty, depreciation, profit_before_tax, tax,
      after_tax_profit, cash_flow, annual_production, days_per_year, scenarioA]

lemma valid_scenarioA : Valid scenarioA := by
  unfold Valid scenarioA; norm_num

/-- C10: the depreciation term cancels out of the cash-flow line: the net
cash flow is exactly revenue minus opex, royalty and tax, so depreciation
enters only through the tax amount. -/
theorem cash_flow_decomposition (a : Assumptions) :
    cash_flow a = revenue a - opex_total a - royalty a - tax a := by
  unfold cash_flow after_tax_profit profit_before_tax
  ring

/-- C4: the tax line is never floored at zero: under the §3 constraints a
negative profit before tax yields a strictly negative tax (a tax credit),
and the cash-flow line is built from that unclamped value. -/
theorem tax_unclamped (a : Assumptions) (h : Valid a)
    (hneg : profit_before_tax a < 0) :
    tax a = profit_before_tax a * a.tax_rate / 100 ∧ tax a < 0 ∧
    cash_flow a = profit_before_tax a - tax a + depreciation a := by
  obtain ⟨-, -, -, -, -, -, h25, -⟩ := h
  refine ⟨rfl, ?_, by unfold cash_flow after_tax_profit; ring⟩
  have hpos : (0 : ℚ) < a.tax_rate := lt_of_lt_of_le (by norm_num) h25
  exact div_neg_of_neg_of_pos (mul_neg_of_neg_of_pos hneg hpos) (by norm_num)

/-- A valid assumptions record with zero production: revenue, opex and
royalty vanish, depreciation alone drives profit before tax negative. -/
def scenarioZeroProd : Assumptions :=
  { scenarioA with oil_price := 1, production := 0 }

theorem tax_unclamped_witness :
    Valid scenarioZeroProd ∧ profit_before_tax scenarioZeroProd < 0 ∧
    (tax scenarioZeroProd =
        profit_before_tax scenarioZeroProd * scenarioZeroProd.tax_rate / 100 ∧
      tax scenarioZeroProd < 0 ∧
      cash_flow scenarioZeroProd = profit_before_tax scenarioZeroProd -
        tax scenarioZeroProd + depreciation scenarioZeroProd) := by
  have h1 : Valid scenarioZeroProd := by
    unfold Valid scenarioZeroProd scenarioA; norm_num
  have h2 : profit_before_tax scenarioZeroProd < 0 := by
    norm_num [profit_before_tax, revenue, opex_total, royalty, depreciation,
      annual_production, days_per_year, scenarioZeroProd, scenarioA]
  exact ⟨h1, h2, tax_unclamped scenarioZeroProd h1 h2⟩

/-- C2: for every valid assumptions record the schedule has exactly
`project_life` rows, the `year` of the `i`-th row is `i + 1` (hence years
are strictly increasing starting at 1), and every row carries the same
six scalars. -/
theorem schedule_invariants (a : Assumptions) (h : Valid a) :
    (schedule a).length = a.project_life ∧
    (∀ i (hi : i < (schedule a).length), ((schedule a).get ⟨i, hi⟩).year = i + 1) ∧
    (∀ i j (hi : i < (schedule a).length) (hj : j < (schedule a).length), i < j →
      ((schedule a).get ⟨i, hi⟩).year < ((schedule a).get ⟨j, hj⟩).year) ∧
    (∀ row ∈ schedule a,
      row.revenue = revenue a ∧ row.opex = opex_total a ∧
      row.royalty = royalty a ∧ row.depreciation = depreciation a ∧
      row.tax = tax a ∧ row.netCashFlow = cash_flow a) := by
  have hyear : ∀ i (hi : i < (schedule a).length),
      ((schedule a).get ⟨i, hi⟩).year = i + 1 := by
    intro i hi
    simp [schedule]
  refine ⟨by simp [schedule], hyear, ?_, ?_⟩
  · intro i j hi hj hij
    rw [hyear i hi, hyear j hj]
    omega
  · intro row hrow
    simp only [schedule, List.mem_map] at hrow
    obtain ⟨i, -, rfl⟩ := hrow
    exact ⟨rfl, rfl, rfl, rfl, rfl, rfl⟩

theorem schedule_invariants_witness :
    Valid scenarioA ∧
    ((schedule scenarioA).length = scenarioA.project_life ∧
    (∀ i (hi : i < (schedule scenarioA).length),
      ((schedule scenarioA).get ⟨i, hi⟩).year = i + 1) ∧
    (∀ i j (hi : i < (schedule scenarioA).length)
        (hj : j < (schedule scenarioA).length), i < j →
      ((schedule scenarioA).get ⟨i, hi⟩).year <
        ((schedule scenarioA).get ⟨j, hj⟩).year) ∧
    (∀ row ∈ schedule scenarioA,
      row.revenue = revenue scenarioA ∧ row.opex = opex_total scenarioA ∧
      row.royalty = royalty scenarioA ∧ row.depreciation = depreciation scenarioA ∧
      row.tax = tax scenarioA ∧ row.netCashFlow = cash_flow scenarioA)) :=
  ⟨valid_scenarioA, schedule_invariants scenarioA valid_scenarioA⟩

lemma npvAux_replicate (r : ℚ) (c : ℚ) :
    ∀ (n t : ℕ), npvAux r t (List.replicate n c) =
      ∑ i ∈ Finset.range n, c / (1 + r) ^ (t + i) := by
  intro n
  induction n with
  | zero => intro t; simp [npvAux]
  | succ n ih =>
    intro t
    rw [List.replicate_succ]
    show c / (1 + r) ^ t + npvAux r (t + 1) (List.replicate n c) = _
    rw [ih (t + 1), Finset.sum_range_succ']
    simp only [Nat.add_zero]
    rw [add_comm]
    congr 1
    refine Finset.sum_congr rfl fun i _ => ?_
    ring_nf

/-- The standard discounted-cash-flow formula exactly as the spec words
it: `npv = Σ_{t=0}^{n} cf_t / (1+r)^t` with `cf_0 = -capex` and
`cf_t = annualNetCashFlow` for `t ≥ 1`. -/
def dcfFormula (r c0 cf : ℚ) (n : ℕ) : ℚ :=
  ∑ t ∈ Finset.range (n + 1), (if t = 0 then c0 else cf) / (1 + r) ^ t

/-- C3: the engine's `npv` equals the standard discounted-cash-flow sum
over the stream `[-capex, cf, ..., cf]` of length `project_life + 1` at
rate `discount_rate / 100`, with the year-0 term undiscounted. -/
theorem npv_eq_dcfFormula (a : Assumptions) :
    npv a = dcfFormula (a.discount_rate / 100) (-a.capex) (cash_flow a)
      a.project_life := by
  unfold npv npvStream stream dcfFormula
  show -a.capex / (1 + a.discount_rate / 100) ^ 0 +
      npvAux (a.discount_rate / 100) 1 (List.replicate a.project_life (cash_flow a)) = _
  rw [npvAux_replicate, Finset.sum_range_succ']
  simp only [pow_zero, if_pos rfl]
  rw [add_comm]
  congr 1
  refine Finset.sum_congr rfl fun i _ => ?_
  have : i + 1 ≠ 0 := Nat.succ_ne_zero i
  rw [if_neg this]
  ring_nf

/-- Modelled from the spec: the failure taxonomy of §7.  The source
script has no typed failures (its numerical library raises or yields
NaN); the design document specifies these three inspectable outcomes. -/
inductive EngineError where
  | InvalidInput
  | NoRootFound
  | DidNotConverge
  deriving Repr, DecidableEq

/-- Modelled from the spec: §4.1 IRR solver tolerance, 1e-7 on NPV. -/
def irrTol : ℚ := 1 / 10000000

/-- Modelled from the spec: §4.1 IRR bracket lower end, -0.99. -/
def irrLo : ℚ := -99 / 100

/-- Modelled from the spec: §4.1 IRR bracket upper end, 10.0. -/
def irrHi : ℚ := 10

/-- Modelled from the spec: §4.1 bisection root-finder for the IRR with a
fuel bound (iteration cap 100); returns the midpoint once the NPV there
is within `irrTol`, and `DidNotConverge` when the fuel runs out. -/
def bisect (cfs : List ℚ) : ℕ → ℚ → ℚ → Except EngineError ℚ
  | 0, _, _ => .error .DidNotConverge
  | fuel + 1, lo, hi =>
    if |npvStream ((lo + hi) / 2) cfs| ≤ irrTol then .ok ((lo + hi) / 2)
    else if npvStream lo cfs * npvStream ((lo + hi) / 2) cfs ≤ 0 then
      bisect cfs fuel lo ((lo + hi) / 2)
    else bisect cfs fuel ((lo + hi) / 2) hi

/-- Modelled from the spec: §4.1 IRR computation as a fraction — check
the bracket for a sign change (`NoRootFound` otherwise), then bisect with
an iteration cap of 100. -/
def irrCore (cfs : List ℚ) : Except EngineError ℚ :=
  if npvStream irrLo cfs * npvStream irrHi cfs > 0 then .error .NoRootFound
  else bisect cfs 100 irrLo irrHi

/-- Source line 77, with the solver modelled from the spec:
`irr = npf.irr([-capex] + list(cash_flows)) * 100`. -/
def irr (a : Assumptions) : Except EngineError ℚ :=
  (irrCore (stream a)).map fun x => x * 100

/-- The derived, immutable result record of §3. -/
structure ProjectionResult where
  annualRevenue : ℚ
  annualOpex : ℚ
  annualRoyalty : ℚ
  annualDepreciation : ℚ
  annualTax : ℚ
  annualNetCashFlow : ℚ
  schedule : List Row
  npv : ℚ
  irr : ℚ
  deriving Repr, DecidableEq

/-- Modelled from the spec: the §4.1/§7 engine contract — a pure function
from assumptions to a result or a typed failure, rejecting any record
outside the §3 ranges with `InvalidInput`. -/
def project (a : Assumptions) : Except EngineError ProjectionResult :=
  if Valid a then
    (irr a).map fun i =>
      { annualRevenue := revenue a
        annualOpex := opex_total a
        annualRoyalty := royalty a
        annualDepreciation := depreciation a
        annualTax := tax a
        annualNetCashFlow := cash_flow a
        schedule := schedule a
        npv := npv a
        irr := i }
  else .error .InvalidInput

lemma bisect_succ (cfs : List ℚ) (fuel : ℕ) (lo hi : ℚ) :
    bisect cfs (fuel + 1) lo hi =
      if |npvStream ((lo + hi) / 2) cfs| ≤ irrTol then Except.ok ((lo + hi) / 2)
      else if npvStream lo cfs * npvStream ((lo + hi) / 2) cfs ≤ 0 then
        bisect cfs fuel lo ((lo + hi) / 2)
      else bisect cfs fuel ((lo + hi) / 2) hi := rfl

/-- Whatever rate the bisection returns is a rate at which the NPV of the
stream is within the solver tolerance. -/
lemma bisect_ok_tol (cfs : List ℚ) (fuel : ℕ) :
    ∀ lo hi r : ℚ, bisect cfs fuel lo hi = Except.ok r →
      |npvStream r cfs| ≤ irrTol := by
  induction fuel with
  | zero =>
    intro lo hi r h
    simp [bisect] at h
  | succ fuel ih =>
    intro lo hi r h
    simp only [bisect] at h
    split_ifs at h with h1 h2
    · obtain rfl : (lo + hi) / 2 = r := Except.ok.inj h
      exact h1
    · exact ih _ _ _ h
    · exact ih _ _ _ h

/-- C5: round-trip of the summary metrics — whenever an `irr` is
returned for a valid assumptions record, re-evaluating the NPV of the
stream `[-capex, cf, ..., cf]` at that rate (as a fraction, `irr/100`)
is within tolerance 1e-4 of zero. -/
theorem irr_roundtrip (a : Assumptions) (h : Valid a) (r : ℚ)
    (hirr : irr a = Except.ok r) :
    |npvStream (r / 100) (stream a)| ≤ 1 / 10000 := by
  unfold irr at hirr
  cases hcore : irrCore (stream a) with
  | error e => rw [hcore] at hirr; exact absurd hirr (by simp [Except.map])
  | ok x =>
    rw [hcore] at hirr
    simp only [Except.map, Except.ok.injEq] at hirr
    have hx : |npvStream x (stream a)| ≤ irrTol := by
      unfold irrCore at hcore
      split_ifs at hcore
      exact bisect_ok_tol _ _ _ _ _ hcore
    have hr : r / 100 = x := by rw [← hirr]; field_simp
    rw [hr]
    exact le_trans hx (by norm_num [irrTol])

/-- C8: the stream of an all-zero per-year cash flow, `[-capex, 0, ..., 0]`
with positive capex, has no sign change in the bracket, so the IRR
computation yields the typed failure `NoRootFound`. -/
theorem zero_cash_flows_no_root (c : ℚ) (n : ℕ) (hc : 0 < c) :
    irrCore (-c :: List.replicate n 0) = Except.error EngineError.NoRootFound := by
  have hz : ∀ r : ℚ, npvStream r (-c :: List.replicate n 0) = -c := by
    intro r
    show -c / (1 + r) ^ 0 + npvAux r 1 (List.replicate n 0) = -c
    rw [npvAux_replicate]
    simp
  unfold irrCore
  rw [hz, hz, if_pos]
  exact mul_pos_of_neg_of_neg (neg_lt_zero.mpr hc) (neg_lt_zero.mpr hc)

theorem zero_cash_flows_no_root_witness :
    (0 : ℚ) < 4000 ∧
    irrCore (-(4000 : ℚ) :: List.replicate 10 0) =
      Except.error EngineError.NoRootFound :=
  ⟨by norm_num, zero_cash_flows_no_root 4000 10 (by norm_num)⟩

/-- A valid record whose discount rate is out of range (-100%). -/
def scenarioBadRate : Assumptions := { scenarioA with discount_rate := -100 }

/-- A record whose horizon is out of range (0 years). -/
def scenarioBadLife : Assumptions := { scenarioA with project_life := 0 }

/-- C7: out-of-range boundary inputs produce the typed failure
`InvalidInput`, not a numeric result: a discount rate of -100% and a
project life of 0 years are both rejected. -/
theorem boundary_invalid_input :
    project scenarioBadRate = Except.error EngineError.InvalidInput ∧
    project scenarioBadLife = Except.error EngineError.InvalidInput := by
  constructor
  · have h : ¬ Valid scenarioBadRate := by
      unfold Valid scenarioBadRate scenarioA
      norm_num
    unfold project
    rw [if_neg h]
  · have h : ¬ Valid scenarioBadLife := by
      unfold Valid scenarioBadLife scenarioA
      norm_num
    unfold project
    rw [if_neg h]

/-- C9: the engine is deterministic — equal assumptions records yield
equal results in every field; the embedded computation is a pure function
reading nothing but its input record. -/
theorem project_deterministic (a₁ a₂ : Assumptions) (h : a₁ = a₂) :
    project a₁ = project a₂ := by rw [h]

theorem project_deterministic_witness :
    scenarioA = scenarioA ∧ project scenarioA = project scenarioA :=
  ⟨rfl, project_deterministic scenarioA scenarioA rfl⟩

lemma npv_eq_sum (a : Assumptions) :
    npv a = -a.capex + ∑ i ∈ Finset.range a.project_life,
      cash_flow a / (1 + a.discount_rate / 100) ^ (i + 1) := by
  unfold npv npvStream stream
  show -a.capex / (1 + a.discount_rate / 100) ^ 0 +
      npvAux (a.discount_rate / 100) 1 (List.replicate a.project_life (cash_flow a)) = _
  rw [npvAux_replicate]
  simp only [pow_zero, div_one]
  congr 1
  refine Finset.sum_congr rfl fun i _ => ?_
  ring_nf

/-- C6: for two valid assumptions records that differ only in the
discount rate, with a positive annual net cash flow, the NPV computed at
the strictly higher discount rate is strictly smaller. -/
theorem npv_antitone_in_discount_rate (a : Assumptions) (d₁ d₂ : ℚ)
    (h₁ : Valid { a with discount_rate := d₁ })
    (h₂ : Valid { a with discount_rate := d₂ })
    (hcf : 0 < cash_flow a) (hlt : d₁ < d₂) :
    npv { a with discount_rate := d₂ } < npv { a with discount_rate := d₁ } := by
  obtain ⟨-, -, -, -, -, -, -, -, hd₁, -, hlife, -⟩ := h₁
  obtain ⟨-, -, -, -, -, -, -, -, hd₂, -, -, -⟩ := h₂
  rw [npv_eq_sum, npv_eq_sum]
  have hcf' : cash_flow { a with discount_rate := d₁ } = cash_flow a := rfl
  have hcf'' : cash_flow { a with discount_rate := d₂ } = cash_flow a := rfl
  simp only [hcf', hcf'']
  apply add_lt_add_left
  apply Finset.sum_lt_sum_of_nonempty
  · rw [Finset.nonempty_range_iff]
    intro hzero
    rw [show ({ a with discount_rate := d₂ } : Assumptions).project_life
          = ({ a with discount_rate := d₁ } : Assumptions).project_life from rfl,
      hzero] at hlife
    exact absurd hlife (by norm_num)
  · intro i _
    have hb₁ : (0 : ℚ) < 1 + d₁ / 100 := by
      have : (5 : ℚ) ≤ d₁ := hd₁
      linarith
    have hb : (1 : ℚ) + d₁ / 100 < 1 + d₂ / 100 := by linarith
    have hpow : (1 + d₁ / 100) ^ (i + 1) < (1 + d₂ / 100) ^ (i + 1) :=
      pow_lt_pow_left₀ hb (le_of_lt hb₁) (Nat.succ_ne_zero i)
    exact div_lt_div_of_pos_left hcf (pow_pos hb₁ (i + 1)) hpow

theorem npv_antitone_witness :
    Valid { scenarioA with discount_rate := 10 } ∧
    Valid { scenarioA with discount_rate := 15 } ∧
    0 < cash_flow scenarioA ∧ (10 : ℚ) < 15 ∧
    npv { scenarioA with discount_rate := 15 } <
      npv { scenarioA with discount_rate := 10 } := by
  have h₁ : Valid { scenarioA with discount_rate := 10 } := by
    unfold Valid scenarioA; norm_num
  have h₂ : Valid { scenarioA with discount_rate := 15 } := by
    unfold Valid scenarioA; norm_num
  have hcf : 0 < cash_flow scenarioA := by
    norm_num [cash_flow, after_tax_profit, profit_before_tax, tax, revenue,
      opex_total, royalty, depreciation, annual_production, days_per_year, scenarioA]
  exact ⟨h₁, h₂, hcf, by norm_num,
    npv_antitone_in_discount_rate scenarioA 10 15 h₁ h₂ hcf (by norm_num)⟩

/-- A valid assumptions record (five-year horizon, high oil price) whose
cash flow makes the first bisection midpoint an exact IRR root, so the
solver converges immediately. -/
def scenarioIrr : Assumptions :=
  { oil_price := 1100895507389970440 / 2752124327733333
    production := 200000
    capex := 4000
    opex_per_bbl := 12
    depreciation_rate := 20
    royalty_rate := 10
    tax_rate := 30
    discount_rate := 10
    project_life := 5 }

theorem irr_roundtrip_witness :
    Valid scenarioIrr ∧ irr scenarioIrr = Except.ok (901 / 2) ∧
    |npvStream (901 / 2 / 100) (stream scenarioIrr)| ≤ 1 / 10000 := by
  have hv : Valid scenarioIrr := by
    unfold Valid scenarioIrr; norm_num
  have hcf : cash_flow scenarioIrr = 32356876442110020 / 1795253964601 := by
    norm_num [cash_flow, after_tax_profit, profit_before_tax, tax, revenue,
      opex_total, royalty, depreciation, annual_production, days_per_year, scenarioIrr]
  have hs : stream scenarioIrr = -(4000 : ℚ) ::
      [cash_flow scenarioIrr, cash_flow scenarioIrr, cash_flow scenarioIrr,
        cash_flow scenarioIrr, cash_flow scenarioIrr] := rfl
  have hlo : npvStream irrLo (stream scenarioIrr) =
      326837135739024361472798000 / 1795253964601 := by
    rw [hs, hcf]
    norm_num [npvStream, npvAux, irrLo]
  have hhi : npvStream irrHi (stream scenarioIrr) =
      -635402289911640731900 / 289127446252955651 := by
    rw [hs, hcf]
    norm_num [npvStream, npvAux, irrHi]
  have hmid : npvStream ((irrLo + irrHi) / 2) (stream scenarioIrr) = 0 := by
    rw [hs, hcf]
    norm_num [npvStream, npvAux, irrLo, irrHi]
  have hcore : irrCore (stream scenarioIrr) = Except.ok (901 / 200) := by
    unfold irrCore
    rw [hlo, hhi, if_neg (by norm_num)]
    rw [show (100 : ℕ) = 99 + 1 from rfl, bisect_succ]
    rw [hmid, if_pos (by rw [abs_zero]; norm_num [irrTol])]
    norm_num [irrLo, irrHi]
  have hirr : irr scenarioIrr = Except.ok (901 / 2) := by
    unfold irr
    rw [hcore]
    simp only [Except.map]
    norm_num
  exact ⟨hv, hirr, irr_roundtrip scenarioIrr hv (901 / 2) hirr⟩

end Tilenga
